import Mathlib

/-!
Verification development for the BT-58D printer dashboard (src/gui.py).

The Python source is shallowly embedded: pure helpers become Lean functions,
the mutable application state (counter, flags, printer handle) becomes an
explicit record threaded through state-transformer functions, Python
exceptions become Option results or explicit success flags, Python ints are
Int, and Python floats appearing in the counter/auto-run logic are embedded
as exact rationals (Rat); the binary floating-point representation itself,
and the non-finite float literals inf and nan, are outside the embedding.
-/

/-- Values that can appear in the JSON configuration document
(printer_config.json): strings, integers, floats (as rationals),
booleans, and null.  Arrays and objects are not used by the program's
recognized keys but a non-scalar stored value behaves like the other
non-string cases, so scalars suffice for the accessors modelled here. -/
inductive JVal where
  | s (v : String)
  | i (v : Int)
  | f (v : Rat)
  | b (v : Bool)
  | null
  deriving DecidableEq

/-- True exactly for string-tagged values; mirrors Python's
isinstance(v, str) test used by the id accessors in gui.py. -/
def JVal.isString : JVal → Bool
  | .s _ => true
  | _ => false

/-- True exactly for integer-tagged values. -/
def JVal.isInt : JVal → Bool
  | .i _ => true
  | _ => false

/-- A configuration is a JSON object, embedded as an insertion-ordered
association list, matching Python dict semantics (first binding wins for
lookup; assignment to a missing key appends). -/
abbrev Config := List (String × JVal)

/-- Dictionary lookup: config.get(key) — first binding for the key. -/
def lookupKey : Config → String → Option JVal
  | [], _ => none
  | (k, v) :: rest, key => if k = key then some v else lookupKey rest key

/-- Membership test: the Python expression key in config. -/
def containsKey (cfg : Config) (key : String) : Bool :=
  (lookupKey cfg key).isSome

/-- Dictionary assignment config[key] = v: replaces the first binding in
place if the key is present, otherwise appends the new binding. -/
def setKey : Config → String → JVal → Config
  | [], key, v => [(key, v)]
  | (k, w) :: rest, key, v =>
      if k = key then (k, v) :: rest else (k, w) :: setKey rest key v

/-- DEFAULT_CONFIG from gui.py lines 15-21. -/
def DEFAULT_CONFIG : Config :=
  [("vendor_id", JVal.s "0x0fe6"),
   ("product_id", JVal.s "0x811e"),
   ("interface", JVal.i 0),
   ("auto_max_count", JVal.i 10),
   ("auto_interval", JVal.f 1)]

/-- State of the configuration file on disk: absent, present but not
parseable as JSON, or present with a parsed object. -/
inductive FileState where
  | missing
  | corrupt
  | contents (cfg : Config)
  deriving DecidableEq

/-- The merge loop inside load_config (gui.py lines 30-32): for each
default key missing from the loaded dict, assign the default value
(appending, per dict-assignment semantics on a fresh key). -/
def mergeFold (ds : Config) (acc : Config) : Config :=
  ds.foldl (fun a kv => if containsKey a kv.1 then a else a ++ [kv]) acc

/-- load_config (gui.py lines 23-36): a missing file, or any exception
while reading or parsing (the corrupt case), yields a copy of the
defaults; a parsed file is merged with the defaults for missing keys. -/
def load_config : FileState → Config
  | .missing => DEFAULT_CONFIG
  | .corrupt => DEFAULT_CONFIG
  | .contents cfg => mergeFold DEFAULT_CONFIG cfg

/-- save_config (gui.py lines 38-45): writes the dict as JSON and returns
true; any exception is swallowed and false is returned.  The write outcome
is an environment input (writeOk); on failure the file keeps its prior
state. -/
def save_config (writeOk : Bool) (cfg : Config) (old : FileState) :
    FileState × Bool :=
  if writeOk then (FileState.contents cfg, true) else (old, false)

theorem lookupKey_append (l1 l2 : Config) (key : String) :
    lookupKey (l1 ++ l2) key =
      (if containsKey l1 key then lookupKey l1 key else lookupKey l2 key) := by
  induction l1 with
  | nil => simp [lookupKey, containsKey]
  | cons hd tl ih =>
      obtain ⟨k, v⟩ := hd
      by_cases h : k = key
      · simp [lookupKey, containsKey, h]
      · simpa [lookupKey, containsKey, h] using ih

theorem containsKey_append (l1 l2 : Config) (key : String) :
    containsKey (l1 ++ l2) key = (containsKey l1 key || containsKey l2 key) := by
  unfold containsKey
  rw [lookupKey_append]
  by_cases h : (lookupKey l1 key).isSome
  · simp [containsKey, h]
  · have hn : lookupKey l1 key = none := Option.not_isSome_iff_eq_none.mp h
    simp [containsKey, h, hn]

theorem mergeFold_lookup_of_mem (ds : Config) :
    ∀ (acc : Config) (key : String), containsKey acc key = true →
      lookupKey (mergeFold ds acc) key = lookupKey acc key := by
  induction ds with
  | nil => intro acc key _; rfl
  | cons d tl ih =>
      intro acc key hmem
      by_cases hd : containsKey acc d.1
      · simpa [mergeFold, List.foldl_cons, hd] using ih acc key hmem
      · have h1 : containsKey (acc ++ [d]) key = true := by
          simp [containsKey_append, hmem]
        have h2 : lookupKey (acc ++ [d]) key = lookupKey acc key := by
          simp [lookupKey_append, hmem]
        have := ih (acc ++ [d]) key h1
        simpa [mergeFold, List.foldl_cons, hd, h2] using this

theorem mergeFold_lookup_fill (ds : Config) :
    ∀ (acc : Config) (key : String) (v : JVal),
      containsKey acc key = false → lookupKey ds key = some v →
      lookupKey (mergeFold ds acc) key = some v := by
  induction ds with
  | nil => intro acc key v _ hds; simp [lookupKey] at hds
  | cons d tl ih =>
      intro acc key v hacc hds
      obtain ⟨k, w⟩ := d
      by_cases hk : k = key
      · subst hk
        have hw : w = v := by simpa [lookupKey] using hds
        subst hw
        have hstep : containsKey acc k = false := hacc
        have h2 : lookupKey (acc ++ [(k, w)]) k = some w := by
          rw [lookupKey_append]
          simp [hacc, lookupKey]
        have h1 : containsKey (acc ++ [(k, w)]) k = true := by
          simp [containsKey, h2]
        have := mergeFold_lookup_of_mem tl (acc ++ [(k, w)]) k h1
        simpa [mergeFold, List.foldl_cons, hstep, h2] using this
      · have hds' : lookupKey tl key = some v := by
          simpa [lookupKey, hk] using hds
        by_cases hd : containsKey acc k
        · simpa [mergeFold, List.foldl_cons, hd] using ih acc key v hacc hds'
        · have haccn : lookupKey acc key = none :=
            Option.not_isSome_iff_eq_none.mp (by simpa [containsKey] using hacc)
          have hacc' : containsKey (acc ++ [(k, w)]) key = false := by
            rw [containsKey_append]
            simp [haccn, containsKey, lookupKey, hk]
          have := ih (acc ++ [(k, w)]) key v hacc' hds'
          simpa [mergeFold, List.foldl_cons, hd] using this

/-- C7: Save followed by Load is a round-trip on recognized keys; Load on
a missing or corrupt configuration file returns exactly the built-in
default configuration; a recognized key missing from a partial file is
filled from the defaults on load. -/
theorem C7_config_roundtrip (cfg : Config) (old : FileState)
    (k k2 : String) (v : JVal)
    (hk : containsKey cfg k = true)
    (hk2 : containsKey cfg k2 = false)
    (hd : lookupKey DEFAULT_CONFIG k2 = some v) :
    load_config FileState.missing = DEFAULT_CONFIG
    ∧ load_config FileState.corrupt = DEFAULT_CONFIG
    ∧ (save_config true cfg old).2 = true
    ∧ lookupKey (load_config (save_config true cfg old).1) k = lookupKey cfg k
    ∧ lookupKey (load_config (FileState.contents cfg)) k2 = some v := by
  refine ⟨rfl, rfl, rfl, ?_, ?_⟩
  · simpa [save_config, load_config] using
      mergeFold_lookup_of_mem DEFAULT_CONFIG cfg k hk
  · simpa [load_config] using
      mergeFold_lookup_fill DEFAULT_CONFIG cfg k2 v hk2 hd

/-- Witness for C7 at a concrete partial configuration. -/
theorem C7_config_roundtrip_witness :
    lookupKey (load_config (save_config true
        [("vendor_id", JVal.s "0xabcd")] FileState.missing).1) "vendor_id"
      = lookupKey [("vendor_id", JVal.s "0xabcd")] "vendor_id"
    ∧ lookupKey (load_config
        (FileState.contents [("vendor_id", JVal.s "0xabcd")])) "interface"
      = some (JVal.i 0) := by
  have h := C7_config_roundtrip [("vendor_id", JVal.s "0xabcd")]
    FileState.missing "vendor_id" "interface" (JVal.i 0)
    (by decide) (by decide) (by decide)
  exact ⟨h.2.2.2.1, h.2.2.2.2⟩

/-- Python whitespace characters stripped by str.strip() and by the
numeric constructors int() and float(). -/
def isPySpace (c : Char) : Bool :=
  c = ' ' || c = '\t' || c = '\n' || c = '\r' ||
  c = Char.ofNat 11 || c = Char.ofNat 12

/-- str.strip() on a character list: drop surrounding whitespace. -/
def pyStrip (cs : List Char) : List Char :=
  ((cs.dropWhile isPySpace).reverse.dropWhile isPySpace).reverse

/-- Decimal digit value, if any. -/
def decDigitVal (c : Char) : Option Nat :=
  if '0' ≤ c ∧ c ≤ '9' then some (c.toNat - '0'.toNat) else none

/-- Hexadecimal digit value, if any. -/
def hexDigitVal (c : Char) : Option Nat :=
  if '0' ≤ c ∧ c ≤ '9' then some (c.toNat - '0'.toNat)
  else if 'a' ≤ c ∧ c ≤ 'f' then some (c.toNat - 'a'.toNat + 10)
  else if 'A' ≤ c ∧ c ≤ 'F' then some (c.toNat - 'A'.toNat + 10)
  else none

/-- After an accepted first digit: the rest of a Python digit token, in
which a single underscore may separate two digits (PEP 515, the grammar
used by int() and float()).  Accumulates the value in the given base and
counts the digits consumed. -/
def digitsRest (base : Nat) (digVal : Char → Option Nat) :
    Nat → Nat → List Char → Option (Nat × Nat)
  | acc, cnt, [] => some (acc, cnt)
  | acc, cnt, '_' :: c :: cs =>
      match digVal c with
      | some d => digitsRest base digVal (acc * base + d) (cnt + 1) cs
      | none => none
  | acc, cnt, c :: cs =>
      match digVal c with
      | some d => digitsRest base digVal (acc * base + d) (cnt + 1) cs
      | none => none

/-- A nonempty Python digit token: must start with a digit, underscores
only between digits.  Returns the value and the number of digits. -/
def digitsTok (base : Nat) (digVal : Char → Option Nat)
    (cs : List Char) : Option (Nat × Nat) :=
  match cs with
  | [] => none
  | c :: rest =>
      match digVal c with
      | some d => digitsRest base digVal d 1 rest
      | none => none

/-- Optional leading sign of a Python numeric literal. -/
def parseSign : List Char → Int × List Char
  | '+' :: cs => (1, cs)
  | '-' :: cs => (-1, cs)
  | cs => (1, cs)

/-- Python int(s) on a decimal string: strip whitespace, optional sign,
then a digit token; anything else raises ValueError (None here). -/
def parsePyIntChars (cs : List Char) : Option Int :=
  let stripped := pyStrip cs
  let sg := parseSign stripped
  match digitsTok 10 decDigitVal sg.2 with
  | some (v, _) => some (sg.1 * (v : Int))
  | none => none

/-- Python int(s) on a String argument. -/
def parsePyInt (s : String) : Option Int :=
  parsePyIntChars s.toList

/-- Python int(s, 16): strip, optional sign, optional 0x/0X prefix (after
which one underscore is permitted), then a hex digit token. -/
def parsePyHexChars (cs : List Char) : Option Int :=
  let stripped := pyStrip cs
  let sg := parseSign stripped
  let body :=
    match sg.2 with
    | '0' :: 'x' :: rest =>
        (match rest with
         | '_' :: r2 => r2
         | _ => rest)
    | '0' :: 'X' :: rest =>
        (match rest with
         | '_' :: r2 => r2
         | _ => rest)
    | other => other
  match digitsTok 16 hexDigitVal body with
  | some (v, _) => some (sg.1 * (v : Int))
  | none => none

/-- Python int(s, 16) on a String argument. -/
def parsePyHex (s : String) : Option Int :=
  parsePyHexChars s.toList

/-- Split a float literal body at the first exponent marker e or E. -/
def splitExp : List Char → List Char × Option (List Char)
  | [] => ([], none)
  | c :: cs =>
      if c = 'e' || c = 'E' then ([], some cs)
      else
        let r := splitExp cs
        (c :: r.1, r.2)

/-- Split a float mantissa at the first decimal point. -/
def splitDot : List Char → List Char × Option (List Char)
  | [] => ([], none)
  | c :: cs =>
      if c = '.' then ([], some cs)
      else
        let r := splitDot cs
        (c :: r.1, r.2)

/-- Mantissa of a Python float literal: digits, digits.digits, digits.,
or .digits (each digit group a valid digit token).  Returned symbolically
as (integer part, fraction numerator, fraction digit count) so the parse
itself stays in Nat arithmetic. -/
def parseMantissa (cs : List Char) : Option (Nat × Nat × Nat) :=
  match splitDot cs with
  | (ip, none) =>
      match digitsTok 10 decDigitVal ip with
      | some (v, _) => some (v, 0, 0)
      | none => none
  | ([], some []) => none
  | ([], some fp) =>
      match digitsTok 10 decDigitVal fp with
      | some (fv, fc) => some (0, fv, fc)
      | none => none
  | (ip, some []) =>
      match digitsTok 10 decDigitVal ip with
      | some (v, _) => some (v, 0, 0)
      | none => none
  | (ip, some fp) =>
      match digitsTok 10 decDigitVal ip, digitsTok 10 decDigitVal fp with
      | some (v, _), some (fv, fc) => some (v, fv, fc)
      | _, _ => none

/-- Signed exponent part after the e/E marker. -/
def parseExpPart (cs : List Char) : Option Int :=
  let sg := parseSign cs
  match digitsTok 10 decDigitVal sg.2 with
  | some (v, _) => some (sg.1 * (v : Int))
  | none => none

/-- Symbolic decomposition of an accepted Python float literal: sign,
integer part, fraction numerator, fraction digit count, decimal
exponent. -/
structure FloatParts where
  sign : Int
  intPart : Nat
  fracNum : Nat
  fracCnt : Nat
  exp : Int
  deriving DecidableEq

/-- Grammar pass of Python float(s), restricted to finite decimal
literals: strip, optional sign, mantissa, optional exponent.  The
non-finite spellings inf and nan are outside this embedding (see the file
header); every other non-numeric string raises ValueError (None here).
The numeric value is assembled separately by FloatParts.toRat. -/
def parsePyFloatRaw (cs : List Char) : Option FloatParts :=
  let stripped := pyStrip cs
  let sg := parseSign stripped
  let parts := splitExp sg.2
  match parseMantissa parts.1 with
  | none => none
  | some m =>
      match parts.2 with
      | none => some ⟨sg.1, m.1, m.2.1, m.2.2, 0⟩
      | some ecs =>
          match parseExpPart ecs with
          | some e => some ⟨sg.1, m.1, m.2.1, m.2.2, e⟩
          | none => none

/-- Ten to an integer power, as a rational. -/
def pow10Rat (e : Int) : Rat :=
  if 0 ≤ e then ((10 : Rat) ^ e.toNat) else 1 / ((10 : Rat) ^ (-e).toNat)

/-- Exact rational value of a decomposed float literal:
sign * (intPart + fracNum / 10 ^ fracCnt) * 10 ^ exp. -/
def FloatParts.toRat (p : FloatParts) : Rat :=
  (p.sign : Rat) * ((p.intPart : Rat) + (p.fracNum : Rat) / (10 : Rat) ^ p.fracCnt)
    * pow10Rat p.exp

/-- Python float(s) as an exact rational (finite decimal literals). -/
def parsePyFloatChars (cs : List Char) : Option Rat :=
  (parsePyFloatRaw cs).map FloatParts.toRat

/-- Python float(s) on a String argument. -/
def parsePyFloat (s : String) : Option Rat :=
  parsePyFloatChars s.toList

/-- Max-count sanitization in _toggle_auto (gui.py lines 958-964): the
entry text parsed with int(); a value below 1 is clamped to 1; a
ValueError (non-numeric text) or AttributeError (entry absent, the none
case) falls back to 10. -/
def sanitizeMaxCount (entry : Option String) : Int :=
  match entry with
  | none => 10
  | some s =>
      match parsePyInt s with
      | some n => if n < 1 then 1 else n
      | none => 10

/-- Interval sanitization in _toggle_auto (gui.py lines 966-972): the
entry text parsed with float(); a value below 0.1 is clamped to 0.1; a
ValueError or AttributeError falls back to 1.0. -/
def sanitizeInterval (entry : Option String) : Rat :=
  match entry with
  | none => 1
  | some s =>
      match parsePyFloat s with
      | some x => if x < 1 / 10 then 1 / 10 else x
      | none => 1

/-- _get_vendor_id (gui.py lines 172-178): read config["vendor_id"] with
string default "0x0fe6"; a string value is parsed as hex with fallback
0x0fe6 on ValueError; a non-string value is returned unchanged (the
isinstance test fails and no exception is raised). -/
def get_vendor_id (cfg : Config) : JVal :=
  match (lookupKey cfg "vendor_id").getD (JVal.s "0x0fe6") with
  | JVal.s str =>
      match parsePyHex str with
      | some n => JVal.i n
      | none => JVal.i 0x0fe6
  | v => v

/-- _get_product_id (gui.py lines 180-186): as get_vendor_id with default
and fallback 0x811e. -/
def get_product_id (cfg : Config) : JVal :=
  match (lookupKey cfg "product_id").getD (JVal.s "0x811e") with
  | JVal.s str =>
      match parsePyHex str with
      | some n => JVal.i n
      | none => JVal.i 0x811e
  | v => v

/-- Mutable PrinterApp state set up in __init__ (gui.py lines 149-165),
restricted to the fields the counter/print coordinator reads or writes.
The Usb handle is opaque (Option Unit: absent or present), usbOpens
counts constructions of the Usb transport so that reconnection behaviour
is observable, and progress mirrors the progress-bar fraction. -/
structure AppState where
  counter : Int
  printer : Option Unit
  auto_running : Bool
  stopped_by_user : Bool
  lockHeld : Bool
  print_scheduled : Bool
  device_connected : Bool
  auto_max_count : Int
  auto_interval : Rat
  progress : Rat
  deriving DecidableEq

structure AppStateX where
  base : AppState
  usbOpens : Nat
  deriving DecidableEq

/-- Initial state from __init__ with the default configuration: counter
0, no printer handle, no auto run, lock free, print_scheduled false. -/
def initState : AppState :=
  { counter := 0, printer := none, auto_running := false,
    stopped_by_user := false, lockHeld := false, print_scheduled := false,
    device_connected := false, auto_max_count := 10, auto_interval := 1,
    progress := 0 }

/-- _manual_add (gui.py lines 952-954): increment the counter by one and
refresh the labels (display only). -/
def manual_add (st : AppState) : AppState :=
  { st with counter := st.counter + 1 }

/-- _reset_counter (gui.py lines 941-944): set the counter to zero. -/
def reset_counter (st : AppState) : AppState :=
  { st with counter := 0 }

/-- _set_counter_from_thread (gui.py lines 1028-1034): the display
callback the auto worker posts to the control thread; sets the counter to
the published value and the progress fraction to v / max_count. -/
def set_counter_from_thread (st : AppState) (v : Int) (max_count : Int) :
    AppState :=
  { st with counter := v, progress := (v : Rat) / (max_count : Rat) }

/-- One user action on the counter, as forwarded by the manual screen. -/
inductive CounterOp where
  | add
  | reset
  deriving DecidableEq

/-- Dispatch of a counter action to its handler. -/
def applyCounterOp (st : AppState) : CounterOp → AppState
  | .add => manual_add st
  | .reset => reset_counter st

/-- A finite sequence of counter actions run on the control thread. -/
def runCounterOps (ops : List CounterOp) (st : AppState) : AppState :=
  ops.foldl applyCounterOp st

/-- Length of the leading run of adds in a (reversed) action list. -/
def trailingAdds : List CounterOp → Nat
  | [] => 0
  | CounterOp.add :: rest => trailingAdds rest + 1
  | CounterOp.reset :: _ => 0

/-- Specification-side count: the number of adds after the most recent
reset (the trailing run of adds). -/
def addsSinceLastReset (ops : List CounterOp) : Nat :=
  trailingAdds ops.reverse

/-- The while-loop of _auto_worker (gui.py lines 1005-1008), unrolled on
the remaining iteration budget r (initially max_count, standing for the
guard i < max_count).  running i gives the value of self.auto_running
read at the loop head after i publishes; each iteration increments i and
publishes the new value to the display callback. -/
def autoLoopGo (running : Nat → Bool) : Nat → Nat → List Nat
  | _, 0 => []
  | i, r + 1 =>
      if running i then (i + 1) :: autoLoopGo running (i + 1) r else []

/-- The counter values the auto worker publishes over a whole run. -/
def autoWorkerPublishes (max_count : Nat) (running : Nat → Bool) : List Nat :=
  autoLoopGo running 0 max_count

/-- The guarded block after the worker loop (gui.py lines 1010-1013),
executed under _ui_lock: if print_scheduled is not yet set, set it and
schedule the automatic print.  Returns the new flag and whether a print
was scheduled. -/
def schedulePrintGuarded (ps : Bool) : Bool × Bool :=
  if !ps then (true, true) else (ps, false)

/-- The worker epilogue: the guarded scheduling block followed by the
finally clause setting auto_running to false (gui.py lines 1010-1019).
Returns the state and whether an automatic print was scheduled. -/
def auto_worker_finish (st : AppState) : AppState × Bool :=
  let r := schedulePrintGuarded st.print_scheduled
  ({ st with print_scheduled := r.1, auto_running := false }, r.2)

/-- Number of automatic prints scheduled by n executions of the guarded
block starting from a given flag value. -/
def runFinishBlocks : Nat → Bool → Nat
  | 0, _ => 0
  | n + 1, ps =>
      let r := schedulePrintGuarded ps
      (if r.2 then 1 else 0) + runFinishBlocks n r.1

/-- _toggle_auto (gui.py lines 956-997).  Start branch (no run active):
sanitize the two entry fields, set auto_running, reset the counter,
clear stopped_by_user and (under _ui_lock) print_scheduled, and start one
worker thread.  Stop branch (run active): set stopped_by_user, clear
auto_running, disable the button; no worker is started and nothing is
printed or scheduled.  The returned Nat counts worker threads started. -/
def toggle_auto (st : AppState) (maxEntry intervalEntry : Option String) :
    AppState × Nat :=
  if st.auto_running = false then
    ({ st with auto_max_count := sanitizeMaxCount maxEntry,
               auto_interval := sanitizeInterval intervalEntry,
               auto_running := true, counter := 0,
               stopped_by_user := false, print_scheduled := false }, 1)
  else
    ({ st with stopped_by_user := true, auto_running := false }, 0)

/-- _set_device_status (gui.py lines 229-244): record the probed
presence; on a disconnected report, close any open printer handle
(ignoring close errors — the closeOk outcome has no effect) and discard
it. -/
def set_device_status (st : AppState) (connected : Bool) (closeOk : Bool) :
    AppState :=
  if connected then { st with device_connected := true }
  else { st with device_connected := false, printer := none }

/-- connect_printer (gui.py lines 249-265): reuse an existing handle;
otherwise construct a Usb transport (counted in usbOpens) which the
environment may fail (usbOk); on success mark the device connected, on
failure show the error popup and leave the handle absent.  Returns
whether a handle is available. -/
def connect_printer (st : AppStateX) (usbOk : Bool) : AppStateX × Bool :=
  match st.base.printer with
  | some _ => (st, true)
  | none =>
      if usbOk then
        let b2 := { st.base with printer := some (), device_connected := true }
        ({ base := b2, usbOpens := st.usbOpens + 1 }, true)
      else
        ({ base := st.base, usbOpens := st.usbOpens + 1 }, false)

/-- Observable outcome of a print request. -/
inductive PrintResult where
  | busy
  | connectionFailed
  | printError
  | printed
  deriving DecidableEq

/-- print_count (gui.py lines 1067-1133): try-acquire the print lock; if
already held, show the busy notice and return with nothing changed.
Otherwise connect (returning through the finally clause on failure), emit
the receipt body — any device exception there (bodyOk false) is caught
and reported — and release the lock in the finally clause on every path. -/
def print_count (st : AppStateX) (usbOk : Bool) (bodyOk : Bool) :
    AppStateX × PrintResult :=
  if st.base.lockHeld then (st, PrintResult.busy)
  else
    let st1 : AppStateX := { st with base := { st.base with lockHeld := true } }
    let c := connect_printer st1 usbOk
    if c.2 then
      if bodyOk then
        ({ c.1 with base := { c.1.base with lockHeld := false } },
         PrintResult.printed)
      else
        ({ c.1 with base := { c.1.base with lockHeld := false } },
         PrintResult.printError)
    else
      ({ c.1 with base := { c.1.base with lockHeld := false } },
       PrintResult.connectionFailed)

/-- test_print (gui.py lines 1135-1186): identical locking, connection
and release discipline to print_count, with a fixed diagnostic receipt. -/
def test_print (st : AppStateX) (usbOk : Bool) (bodyOk : Bool) :
    AppStateX × PrintResult :=
  if st.base.lockHeld then (st, PrintResult.busy)
  else
    let st1 : AppStateX := { st with base := { st.base with lockHeld := true } }
    let c := connect_printer st1 usbOk
    if c.2 then
      if bodyOk then
        ({ c.1 with base := { c.1.base with lockHeld := false } },
         PrintResult.printed)
      else
        ({ c.1 with base := { c.1.base with lockHeld := false } },
         PrintResult.printError)
    else
      ({ c.1 with base := { c.1.base with lockHeld := false } },
       PrintResult.connectionFailed)

/-- _print_and_reset (gui.py lines 1021-1026): run the print (on the
control thread via _safe_print_call), then reset the counter and the
progress bar to zero regardless of the print outcome. -/
def print_and_reset (st : AppStateX) (usbOk : Bool) (bodyOk : Bool) :
    AppStateX × PrintResult :=
  let r := print_count st usbOk bodyOk
  ({ r.1 with base := { r.1.base with counter := 0, progress := 0 } }, r.2)

theorem autoLoopGo_stop (k : Nat) (r : Nat) :
    ∀ i, autoLoopGo (fun j => decide (j < k)) i r =
      List.range' (i + 1) (min (k - i) r) := by
  induction r with
  | zero => intro i; simp [autoLoopGo]
  | succ r ih =>
      intro i
      by_cases h : i < k
      · have hmin : min (k - i) (r + 1) = min (k - (i + 1)) r + 1 := by omega
        rw [hmin, List.range'_succ]
        simp [autoLoopGo, h, ih (i + 1)]
      · have h0 : k - i = 0 := by omega
        simp [autoLoopGo, h, h0]

/-- C1: an unstopped auto run with max_count = 10 publishes exactly the
counter values 1..10 to the display callback, in strictly increasing
order with no repeats or gaps; the completion block starting from
print_scheduled = false schedules exactly one automatic print and sets
the flag; and the scheduled print-and-reset leaves the counter at 0. -/
theorem C1_auto_run_ten :
    autoWorkerPublishes 10 (fun _ => true) = [1, 2, 3, 4, 5, 6, 7, 8, 9, 10]
    ∧ List.Chain' (· < ·) (autoWorkerPublishes 10 (fun _ => true))
    ∧ (autoWorkerPublishes 10 (fun _ => true)).Nodup
    ∧ (∀ st v m, (set_counter_from_thread st v m).counter = v)
    ∧ (∀ st : AppState,
        (auto_worker_finish { st with print_scheduled := false }).2 = true
        ∧ (auto_worker_finish
            { st with print_scheduled := false }).1.print_scheduled = true)
    ∧ (∀ (st : AppStateX) (usbOk bodyOk : Bool),
        (print_and_reset st usbOk bodyOk).1.base.counter = 0) := by
  have hpub : autoWorkerPublishes 10 (fun _ => true) =
      [1, 2, 3, 4, 5, 6, 7, 8, 9, 10] := by decide
  refine ⟨hpub, ?_, ?_, ?_, ?_, ?_⟩
  · rw [hpub]
    norm_num [List.chain'_cons]
  · rw [hpub]
    decide
  · intro st v m; rfl
  · intro st
    exact ⟨rfl, rfl⟩
  · intro st usbOk bodyOk; rfl

/-- C2: the stop branch of _toggle_auto only sets stopped_by_user and
clears auto_running (in particular print_scheduled is untouched, no
worker is started and no print is issued by the stop itself), and a
worker whose auto_running reads become false after k publishes stops at
that loop boundary, publishing only 1..k of the max_count values. -/
theorem C2_stop_auto (st : AppState) (e1 e2 : Option String) (k maxc : Nat)
    (hrun : st.auto_running = true) (hk : k < maxc) :
    toggle_auto st e1 e2 =
      ({ st with stopped_by_user := true, auto_running := false }, 0)
    ∧ (toggle_auto st e1 e2).1.print_scheduled = st.print_scheduled
    ∧ autoWorkerPublishes maxc (fun i => decide (i < k)) = List.range' 1 k
    ∧ (autoWorkerPublishes maxc (fun i => decide (i < k))).length < maxc := by
  have hpub : autoWorkerPublishes maxc (fun i => decide (i < k)) =
      List.range' 1 k := by
    have h0 := autoLoopGo_stop k maxc 0
    have hmin : min (k - 0) maxc = k := by omega
    rw [hmin] at h0
    simpa [autoWorkerPublishes] using h0
  refine ⟨?_, ?_, hpub, ?_⟩
  · simp [toggle_auto, hrun]
  · simp [toggle_auto, hrun]
  · rw [hpub]
    simpa [List.length_range'] using hk

/-- Witness for C2 with a stop after 3 of 10 counts. -/
theorem C2_stop_auto_witness :
    autoWorkerPublishes 10 (fun i => decide (i < 3)) = List.range' 1 3
    ∧ (toggle_auto { initState with auto_running := true } none none).1.counter
        = (initState : AppState).counter := by
  have h := C2_stop_auto { initState with auto_running := true } none none 3 10
    rfl (by decide)
  refine ⟨h.2.2.1, ?_⟩
  rw [h.1]

/-- C4: the print_scheduled guard makes the completion path idempotent:
over any number of executions of the guarded block within one run, at
most one automatic print is scheduled when the flag starts false, none
when it starts true, and the flag, once observed set, never fires
again. -/
theorem C4_print_scheduled_once (n : Nat) :
    runFinishBlocks n false ≤ 1
    ∧ runFinishBlocks n true = 0
    ∧ (∀ ps, (schedulePrintGuarded ps).1 = true)
    ∧ (schedulePrintGuarded true).2 = false := by
  have htrue : ∀ m, runFinishBlocks m true = 0 := by
    intro m
    induction m with
    | zero => rfl
    | succ m ih => simpa [runFinishBlocks, schedulePrintGuarded] using ih
  refine ⟨?_, htrue n, ?_, rfl⟩
  · cases n with
    | zero => decide
    | succ m =>
        simp [runFinishBlocks, schedulePrintGuarded, htrue m]
  · intro ps; cases ps <;> rfl

/-- C5: over any finite sequence of manual adds and resets run on the
control thread from the initial state, the counter equals the number of
adds since the most recent reset, and is never negative. -/
theorem C5_counter_history (ops : List CounterOp) :
    (runCounterOps ops initState).counter = (addsSinceLastReset ops : Int)
    ∧ 0 ≤ (runCounterOps ops initState).counter := by
  have h : (runCounterOps ops initState).counter =
      (addsSinceLastReset ops : Int) := by
    induction ops using List.reverseRecOn with
    | nil => rfl
    | append_singleton ops op ih =>
        cases op with
        | add =>
            simp [runCounterOps, List.foldl_append, applyCounterOp,
              manual_add, addsSinceLastReset, trailingAdds] at ih ⊢
            omega
        | reset =>
            simp [runCounterOps, List.foldl_append, applyCounterOp,
              reset_counter, addsSinceLastReset, trailingAdds]
  exact ⟨h, by rw [h]; exact Int.natCast_nonneg _⟩

/-- C3: print_count and test_print try-acquire the print lock: with the
lock already held they return immediately with the busy notice and the
state unchanged, and whenever a job runs (lock initially free), the lock
is released on every exit path — success, printer error, or connection
failure. -/
theorem C3_print_lock_discipline :
    ∀ (st : AppStateX) (usbOk bodyOk : Bool),
      print_count { st with base := { st.base with lockHeld := true } }
          usbOk bodyOk
        = ({ st with base := { st.base with lockHeld := true } },
           PrintResult.busy)
      ∧ test_print { st with base := { st.base with lockHeld := true } }
          usbOk bodyOk
        = ({ st with base := { st.base with lockHeld := true } },
           PrintResult.busy)
      ∧ (print_count { st with base := { st.base with lockHeld := false } }
          usbOk bodyOk).1.base.lockHeld = false
      ∧ (test_print { st with base := { st.base with lockHeld := false } }
          usbOk bodyOk).1.base.lockHeld = false := by
  intro st usbOk bodyOk
  refine ⟨rfl, rfl, ?_, ?_⟩ <;>
    cases hp : st.base.printer <;> cases usbOk <;> cases bodyOk <;>
      simp [print_count, test_print, connect_printer, hp]

/-- C9: a disconnected presence report closes and discards an open
printer handle (with close errors ignored: the result does not depend on
the close outcome), so the next connect attempt constructs a fresh Usb
transport instead of reusing the stale handle; and while a handle exists,
connect_printer reuses it without opening a second one. -/
theorem C9_disconnect_invalidates (st : AppStateX) (cOk cOk2 usbOk : Bool)
    (h : st.base.printer.isSome = true) :
    (set_device_status st.base false cOk).printer = none
    ∧ set_device_status st.base false cOk = set_device_status st.base false cOk2
    ∧ (connect_printer
        { base := set_device_status st.base false cOk,
          usbOpens := st.usbOpens } usbOk).1.usbOpens = st.usbOpens + 1
    ∧ connect_printer st usbOk = (st, true) := by
  obtain ⟨u, hp⟩ := Option.isSome_iff_exists.mp h
  refine ⟨?_, rfl, ?_, ?_⟩
  · simp [set_device_status]
  · cases usbOk <;> simp [connect_printer, set_device_status]
  · simp [connect_printer, hp]

/-- Witness for C9 at a state holding an open handle. -/
theorem C9_disconnect_invalidates_witness :
    (set_device_status { initState with printer := some () } false true).printer
      = none := by
  exact (C9_disconnect_invalidates
    { base := { initState with printer := some () }, usbOpens := 0 }
    true true true rfl).1

/-- C6: starting an auto run sanitizes without raising — non-numeric text
falls back to the defaults 10 and 1.0, numeric values are clamped to at
least 1 and at least 0.1 — and the start branch resets the counter to 0,
sets auto_running, clears print_scheduled (and stopped_by_user) and
starts exactly one worker thread. -/
theorem C6_start_auto_sanitize (st : AppState)
    (sBadInt sBadFloat sGoodInt sGoodFloat : String)
    (n : Int) (x : Rat) (e1 e2 : Option String)
    (hrun : st.auto_running = false)
    (hbi : parsePyInt sBadInt = none)
    (hbf : parsePyFloat sBadFloat = none)
    (hgi : parsePyInt sGoodInt = some n)
    (hgf : parsePyFloat sGoodFloat = some x) :
    sanitizeMaxCount (some sBadInt) = 10
    ∧ sanitizeInterval (some sBadFloat) = 1
    ∧ sanitizeMaxCount (some sGoodInt) = (if n < 1 then 1 else n)
    ∧ sanitizeInterval (some sGoodFloat) = (if x < 1 / 10 then 1 / 10 else x)
    ∧ 1 ≤ sanitizeMaxCount e1
    ∧ (1 : Rat) / 10 ≤ sanitizeInterval e2
    ∧ toggle_auto st e1 e2 =
        ({ st with auto_max_count := sanitizeMaxCount e1,
                   auto_interval := sanitizeInterval e2,
                   auto_running := true, counter := 0,
                   stopped_by_user := false, print_scheduled := false }, 1) := by
  refine ⟨by simp [sanitizeMaxCount, hbi], by simp [sanitizeInterval, hbf],
    by simp [sanitizeMaxCount, hgi], by simp [sanitizeInterval, hgf],
    ?_, ?_, by simp [toggle_auto, hrun]⟩
  · cases e1 with
    | none => norm_num [sanitizeMaxCount]
    | some s =>
        simp only [sanitizeMaxCount]
        cases hp : parsePyInt s with
        | none => norm_num
        | some m =>
            by_cases hm : m < 1
            · simp [hm]
            · simp [hm]; omega
  · cases e2 with
    | none =>
        simp only [sanitizeInterval]
        norm_num
    | some s =>
        simp only [sanitizeInterval]
        cases hp : parsePyFloat s with
        | none => norm_num
        | some y =>
            show (1 : Rat) / 10 ≤ if y < 1 / 10 then 1 / 10 else y
            by_cases hy : y < 1 / 10
            · rw [if_pos hy]
            · rw [if_neg hy]
              exact not_lt.mp hy

/-- Witness for C6 at concrete entry texts. -/
theorem C6_start_auto_sanitize_witness :
    sanitizeMaxCount (some "abc") = 10
    ∧ sanitizeMaxCount (some "0") = (if (0 : Int) < 1 then 1 else 0)
    ∧ (toggle_auto initState (some "abc") (some "0.05")).1.counter = 0 := by
  have h := C6_start_auto_sanitize initState "abc" "xyz" "0" "0.05"
    0 (FloatParts.toRat ⟨1, 0, 5, 2, 0⟩) (some "abc") (some "0.05")
    rfl (by decide) (by decide) (by decide) rfl
  refine ⟨h.1, h.2.2.1, ?_⟩
  rw [h.2.2.2.2.2.2]

/-- First-character test used by save_settings on the stripped entry
text: new_vid.startswith("0x"). -/
def startsWith0x : List Char → Bool
  | '0' :: 'x' :: _ => true
  | _ => false

/-- Normalization applied by save_settings to the vendor/product entry
text (gui.py lines 415-431): strip, then prepend 0x unless already
present. -/
def normalizeHexChars (s : String) : List Char :=
  let t := pyStrip s.toList
  if startsWith0x t then t else '0' :: 'x' :: t

/-- State touched by the settings dialog: the in-memory configuration,
the open printer handle, and the persisted file. -/
structure SettingsCtx where
  config : Config
  printer : Option Unit
  file : FileState
  deriving DecidableEq

/-- Outcome of a save_settings invocation, one per popup branch. -/
inductive SettingsResult where
  | invalidVendor
  | invalidProduct
  | invalidInterface
  | saved
  | saveFailed
  deriving DecidableEq

/-- save_settings (gui.py lines 413-460): validate the three fields in
order — vendor id hex-parseable after normalization, product id likewise,
interface an integer — returning with a field-specific popup and no state
change on the first failure; only then update the configuration dict,
discard any open printer handle (close errors ignored) and write the
file. -/
def save_settings (ctx : SettingsCtx) (vidIn pidIn ifaceIn : String)
    (writeOk : Bool) : SettingsCtx × SettingsResult :=
  let newVid := normalizeHexChars vidIn
  match parsePyHexChars newVid with
  | none => (ctx, SettingsResult.invalidVendor)
  | some _ =>
      let newPid := normalizeHexChars pidIn
      match parsePyHexChars newPid with
      | none => (ctx, SettingsResult.invalidProduct)
      | some _ =>
          match parsePyInt ifaceIn with
          | none => (ctx, SettingsResult.invalidInterface)
          | some nIf =>
              let cfg2 := setKey (setKey (setKey ctx.config
                "vendor_id" (JVal.s (String.mk newVid)))
                "product_id" (JVal.s (String.mk newPid)))
                "interface" (JVal.i nIf)
              let w := save_config writeOk cfg2 ctx.file
              ({ config := cfg2, printer := none, file := w.1 },
               if w.2 then SettingsResult.saved else SettingsResult.saveFailed)

/-- C8: an invalid vendor id, product id, or interface is rejected by
save_settings with its field-specific result before any state change: the
in-memory configuration, the printer handle and the persisted file are
all returned unchanged, and no write occurs. -/
theorem C8_settings_validation (ctx : SettingsCtx)
    (vidBad pidBad ifBad vidOk pidOk p q r : String) (w : Bool)
    (hv : parsePyHexChars (normalizeHexChars vidBad) = none)
    (hvo : (parsePyHexChars (normalizeHexChars vidOk)).isSome = true)
    (hp : parsePyHexChars (normalizeHexChars pidBad) = none)
    (hpo : (parsePyHexChars (normalizeHexChars pidOk)).isSome = true)
    (hi : parsePyInt ifBad = none) :
    save_settings ctx vidBad p q w = (ctx, SettingsResult.invalidVendor)
    ∧ save_settings ctx vidOk pidBad r w = (ctx, SettingsResult.invalidProduct)
    ∧ save_settings ctx vidOk pidOk ifBad w
        = (ctx, SettingsResult.invalidInterface) := by
  obtain ⟨a, ha⟩ := Option.isSome_iff_exists.mp hvo
  obtain ⟨b, hb⟩ := Option.isSome_iff_exists.mp hpo
  refine ⟨?_, ?_, ?_⟩
  · simp [save_settings, hv]
  · simp [save_settings, ha, hp]
  · simp [save_settings, ha, hb, hi]

/-- Witness for C8 at the spec's example inputs zzzz and abc. -/
theorem C8_settings_validation_witness :
    save_settings ⟨DEFAULT_CONFIG, none, FileState.missing⟩ "zzzz" "x" "y" true
      = (⟨DEFAULT_CONFIG, none, FileState.missing⟩,
         SettingsResult.invalidVendor) := by
  exact (C8_settings_validation ⟨DEFAULT_CONFIG, none, FileState.missing⟩
    "zzzz" "zzzz" "abc" "0fe6" "811e" "x" "y" "z" true
    (by decide) (by decide) (by decide) (by decide) (by decide)).1

/-- C10 counterexample: a non-string stored vendor_id (the float 1.5) is
returned unchanged by the accessor, which is therefore not an integer —
refuting the claim that the accessors always return an integer, falling
back to the built-in identifiers on a wrong-typed value. -/
theorem C10_id_accessor_counterexample :
    get_vendor_id [("vendor_id", JVal.f (3 / 2))] = JVal.f (3 / 2)
    ∧ (JVal.f (3 / 2)).isInt = false :=
  ⟨rfl, rfl⟩

/-- C10 amended: the accessors are total (never raise); a missing key or
a string value yields an integer — the parsed hex value, or the built-in
identifiers 0x0fe6 and 0x811e when the string is unparseable — but a
stored value of non-string type is returned unchanged, and need not be an
integer. -/
theorem C10_id_accessors_amended (cfg1 cfg2 cfg3 cfg4 : Config)
    (s1 s2 : String) (n : Int) (v w : JVal)
    (h1 : lookupKey cfg1 "vendor_id" = some (JVal.s s1))
    (h1b : parsePyHex s1 = none)
    (h2 : lookupKey cfg2 "vendor_id" = some (JVal.s s2))
    (h2b : parsePyHex s2 = some n)
    (h3 : lookupKey cfg3 "vendor_id" = some v)
    (h3b : v.isString = false)
    (h4 : lookupKey cfg4 "product_id" = some w)
    (h4b : w.isString = false) :
    get_vendor_id cfg1 = JVal.i 0x0fe6
    ∧ get_vendor_id cfg2 = JVal.i n
    ∧ get_vendor_id cfg3 = v
    ∧ get_vendor_id [] = JVal.i 0x0fe6
    ∧ get_product_id cfg4 = w
    ∧ get_product_id [] = JVal.i 0x811e := by
  refine ⟨by simp [get_vendor_id, h1, h1b], by simp [get_vendor_id, h2, h2b],
    ?_, by decide, ?_, by decide⟩
  · rcases v with s | i | q | bb | _
    · simp [JVal.isString] at h3b
    · simp [get_vendor_id, h3]
    · simp [get_vendor_id, h3]
    · simp [get_vendor_id, h3]
    · simp [get_vendor_id, h3]
  · rcases w with s | i | q | bb | _
    · simp [JVal.isString] at h4b
    · simp [get_product_id, h4]
    · simp [get_product_id, h4]
    · simp [get_product_id, h4]
    · simp [get_product_id, h4]

/-- Witness for the amended C10 at concrete stored values. -/
theorem C10_id_accessors_amended_witness :
    get_vendor_id [("vendor_id", JVal.s "zz")] = JVal.i 0x0fe6
    ∧ get_vendor_id [("vendor_id", JVal.null)] = JVal.null := by
  have h := C10_id_accessors_amended
    [("vendor_id", JVal.s "zz")] [("vendor_id", JVal.s "0x10")]
    [("vendor_id", JVal.null)] [("product_id", JVal.b true)]
    "zz" "0x10" 16 JVal.null (JVal.b true)
    (by decide) (by decide) (by decide) (by decide)
    (by decide) rfl (by decide) rfl
  exact ⟨h.1, h.2.2.1⟩
